import Mathlib

/-!
# BreezeApp native glue: JNI symbol proxy and crash-reporting shim

A verification development for the three native sources of the application:

* `llm_jni_original.h`  : prototypes of the six `gai_android` native methods;
* `llm_jni_proxy.cpp`   : six `breeze_app` native methods forwarding to them;
* `crashlytics_init.h`  : three wrappers around the crash-reporting SDK.

The external collaborators (the inference engine behind the `gai_android`
symbols, the crash-reporting SDK) are parameters of the embedding.  Their
effects live in a monad `m`; the theorems instantiate `m` with a state monad
(`StateM σ`) or a state monad with failure (`ExceptT ε (StateM σ)`).
-/

namespace BreezeApp

/-! ## JNI value types (`jni.h`) -/

/-- The `JNIEnv*` argument: an address of the per-thread interface table. -/
structure JNIEnvPtr where
  addr : Nat
  deriving DecidableEq, Repr

/-- A `jobject`: a reference handle owned by the Java runtime. -/
structure jobject where
  ref : Nat
  deriving DecidableEq, Repr

/-- A `jstring`: a reference handle to a `java.lang.String`. -/
structure jstring where
  ref : Nat
  deriving DecidableEq, Repr

/-- A `jboolean` is an unsigned 8-bit value. -/
abbrev jboolean := Fin 256

/-- A `jint` is a signed 32-bit value; no arithmetic is ever done on it here. -/
abbrev jint := Int

/-! ## `llm_jni_original.h`: the externally defined targets -/

/-- The six functions declared in `llm_jni_original.h` (lines 9-14).  They are
defined on the other side of the native boundary, so an implementation is a
parameter: any six effectful functions with the declared parameter lists. -/
structure Original (m : Type → Type) where
  Java_com_mtkresearch_gai_1android_service_LLMEngineService_nativeInitLlm :
    JNIEnvPtr → jobject → jstring → jboolean → m jboolean
  Java_com_mtkresearch_gai_1android_service_LLMEngineService_nativeInference :
    JNIEnvPtr → jobject → jstring → jint → jboolean → m jstring
  Java_com_mtkresearch_gai_1android_service_LLMEngineService_nativeStreamingInference :
    JNIEnvPtr → jobject → jstring → jint → jboolean → jobject → m jstring
  Java_com_mtkresearch_gai_1android_service_LLMEngineService_nativeReleaseLlm :
    JNIEnvPtr → jobject → m Unit
  Java_com_mtkresearch_gai_1android_service_LLMEngineService_nativeResetLlm :
    JNIEnvPtr → jobject → m jboolean
  Java_com_mtkresearch_gai_1android_service_LLMEngineService_nativeSwapModel :
    JNIEnvPtr → jobject → jint → m jboolean

/-! ## `llm_jni_proxy.cpp`: the six proxies -/

section Proxy

variable {m : Type → Type}

/-- Proxy for `nativeInitLlm` (`llm_jni_proxy.cpp`, lines 7-10). -/
def Java_com_mtkresearch_breeze_1app_service_LLMEngineService_nativeInitLlm
    (orig : Original m) (env : JNIEnvPtr) (thiz : jobject)
    (yamlConfigPath : jstring) (preloadSharedWeights : jboolean) : m jboolean :=
  orig.Java_com_mtkresearch_gai_1android_service_LLMEngineService_nativeInitLlm
    env thiz yamlConfigPath preloadSharedWeights

/-- Proxy for `nativeInference` (`llm_jni_proxy.cpp`, lines 13-16). -/
def Java_com_mtkresearch_breeze_1app_service_LLMEngineService_nativeInference
    (orig : Original m) (env : JNIEnvPtr) (thiz : jobject)
    (inputString : jstring) (maxResponse : jint) (parsePromptTokens : jboolean) : m jstring :=
  orig.Java_com_mtkresearch_gai_1android_service_LLMEngineService_nativeInference
    env thiz inputString maxResponse parsePromptTokens

/-- Proxy for `nativeStreamingInference` (`llm_jni_proxy.cpp`, lines 19-22). -/
def Java_com_mtkresearch_breeze_1app_service_LLMEngineService_nativeStreamingInference
    (orig : Original m) (env : JNIEnvPtr) (thiz : jobject)
    (inputString : jstring) (maxResponse : jint) (parsePromptTokens : jboolean)
    (callback : jobject) : m jstring :=
  orig.Java_com_mtkresearch_gai_1android_service_LLMEngineService_nativeStreamingInference
    env thiz inputString maxResponse parsePromptTokens callback

/-- Proxy for `nativeReleaseLlm` (`llm_jni_proxy.cpp`, lines 25-28): the target
is called as a statement and the function returns. -/
def Java_com_mtkresearch_breeze_1app_service_LLMEngineService_nativeReleaseLlm
    (orig : Original m) (env : JNIEnvPtr) (thiz : jobject) : m Unit :=
  orig.Java_com_mtkresearch_gai_1android_service_LLMEngineService_nativeReleaseLlm env thiz

/-- Proxy for `nativeResetLlm` (`llm_jni_proxy.cpp`, lines 31-34). -/
def Java_com_mtkresearch_breeze_1app_service_LLMEngineService_nativeResetLlm
    (orig : Original m) (env : JNIEnvPtr) (thiz : jobject) : m jboolean :=
  orig.Java_com_mtkresearch_gai_1android_service_LLMEngineService_nativeResetLlm env thiz

/-- Proxy for `nativeSwapModel` (`llm_jni_proxy.cpp`, lines 37-40). -/
def Java_com_mtkresearch_breeze_1app_service_LLMEngineService_nativeSwapModel
    (orig : Original m) (env : JNIEnvPtr) (thiz : jobject) (tokenSize : jint) : m jboolean :=
  orig.Java_com_mtkresearch_gai_1android_service_LLMEngineService_nativeSwapModel
    env thiz tokenSize

end Proxy

/-! ## `crashlytics_init.h`: the crash-reporting shim -/

/-- The three functions of namespace `firebase::crashlytics` that the shim
calls.  The SDK header is vendored outside this development, so an SDK is a
parameter; `ρ` is whatever its functions hand back (`Unit` for `void`).  A
`const char*` argument is modelled by the string it points to. -/
structure Crashlytics (m : Type → Type) (ρ : Type) where
  Initialize : m ρ
  Log : String → m ρ
  SetCustomKey : String → String → m ρ

section Shim

variable {m : Type → Type} [Monad m] {ρ : Type}

/-- The `initCrashlytics` wrapper (`crashlytics_init.h`, lines 12-14): one call
statement, whose value is dropped, in a `void` function. -/
def initCrashlytics (sdk : Crashlytics m ρ) : m Unit := do
  let _ ← sdk.Initialize
  pure ()

/-- The `logToCrashlytics` wrapper (`crashlytics_init.h`, lines 17-19). -/
def logToCrashlytics (sdk : Crashlytics m ρ) (message : String) : m Unit := do
  let _ ← sdk.Log message
  pure ()

/-- The `setCrashlyticsKey` wrapper (`crashlytics_init.h`, lines 22-24). -/
def setCrashlyticsKey (sdk : Crashlytics m ρ) (key value : String) : m Unit := do
  let _ ← sdk.SetCustomKey key value
  pure ()

end Shim

/-! ## The declarations as written: symbols and signatures -/

/-- The C types occurring in the two JNI sources. -/
inductive CType where
  | JNIEnvPtr
  | jobject
  | jstring
  | jboolean
  | jint
  | void
  deriving DecidableEq, Repr

/-- A function prototype of `llm_jni_original.h`: result type, symbol,
parameter types. -/
structure Prototype where
  ret : CType
  symbol : String
  params : List CType
  deriving DecidableEq, Repr

/-- A function definition of `llm_jni_proxy.cpp`: result type, exported symbol,
named parameters, and the one call in its body (callee symbol and the argument
names in the order written). -/
structure ProxyDefinition where
  ret : CType
  symbol : String
  params : List (CType × String)
  callee : String
  args : List String
  deriving DecidableEq, Repr

/-- The prototypes of `llm_jni_original.h`, lines 9-14, in file order. -/
def llm_jni_original_h : List Prototype :=
  [ { ret := .jboolean
      symbol := "Java_com_mtkresearch_gai_1android_service_LLMEngineService_nativeInitLlm"
      params := [.JNIEnvPtr, .jobject, .jstring, .jboolean] },
    { ret := .jstring
      symbol := "Java_com_mtkresearch_gai_1android_service_LLMEngineService_nativeInference"
      params := [.JNIEnvPtr, .jobject, .jstring, .jint, .jboolean] },
    { ret := .jstring
      symbol :=
        "Java_com_mtkresearch_gai_1android_service_LLMEngineService_nativeStreamingInference"
      params := [.JNIEnvPtr, .jobject, .jstring, .jint, .jboolean, .jobject] },
    { ret := .void
      symbol := "Java_com_mtkresearch_gai_1android_service_LLMEngineService_nativeReleaseLlm"
      params := [.JNIEnvPtr, .jobject] },
    { ret := .jboolean
      symbol := "Java_com_mtkresearch_gai_1android_service_LLMEngineService_nativeResetLlm"
      params := [.JNIEnvPtr, .jobject] },
    { ret := .jboolean
      symbol := "Java_com_mtkresearch_gai_1android_service_LLMEngineService_nativeSwapModel"
      params := [.JNIEnvPtr, .jobject, .jint] } ]

/-- The function definitions of `llm_jni_proxy.cpp`, lines 6-40, in file
order. -/
def llm_jni_proxy_cpp : List ProxyDefinition :=
  [ { ret := .jboolean
      symbol := "Java_com_mtkresearch_breeze_1app_service_LLMEngineService_nativeInitLlm"
      params := [(.JNIEnvPtr, "env"), (.jobject, "thiz"), (.jstring, "yamlConfigPath"),
        (.jboolean, "preloadSharedWeights")]
      callee := "Java_com_mtkresearch_gai_1android_service_LLMEngineService_nativeInitLlm"
      args := ["env", "thiz", "yamlConfigPath", "preloadSharedWeights"] },
    { ret := .jstring
      symbol := "Java_com_mtkresearch_breeze_1app_service_LLMEngineService_nativeInference"
      params := [(.JNIEnvPtr, "env"), (.jobject, "thiz"), (.jstring, "inputString"),
        (.jint, "maxResponse"), (.jboolean, "parsePromptTokens")]
      callee := "Java_com_mtkresearch_gai_1android_service_LLMEngineService_nativeInference"
      args := ["env", "thiz", "inputString", "maxResponse", "parsePromptTokens"] },
    { ret := .jstring
      symbol :=
        "Java_com_mtkresearch_breeze_1app_service_LLMEngineService_nativeStreamingInference"
      params := [(.JNIEnvPtr, "env"), (.jobject, "thiz"), (.jstring, "inputString"),
        (.jint, "maxResponse"), (.jboolean, "parsePromptTokens"), (.jobject, "callback")]
      callee :=
        "Java_com_mtkresearch_gai_1android_service_LLMEngineService_nativeStreamingInference"
      args := ["env", "thiz", "inputString", "maxResponse", "parsePromptTokens", "callback"] },
    { ret := .void
      symbol := "Java_com_mtkresearch_breeze_1app_service_LLMEngineService_nativeReleaseLlm"
      params := [(.JNIEnvPtr, "env"), (.jobject, "thiz")]
      callee := "Java_com_mtkresearch_gai_1android_service_LLMEngineService_nativeReleaseLlm"
      args := ["env", "thiz"] },
    { ret := .jboolean
      symbol := "Java_com_mtkresearch_breeze_1app_service_LLMEngineService_nativeResetLlm"
      params := [(.JNIEnvPtr, "env"), (.jobject, "thiz")]
      callee := "Java_com_mtkresearch_gai_1android_service_LLMEngineService_nativeResetLlm"
      args := ["env", "thiz"] },
    { ret := .jboolean
      symbol := "Java_com_mtkresearch_breeze_1app_service_LLMEngineService_nativeSwapModel"
      params := [(.JNIEnvPtr, "env"), (.jobject, "thiz"), (.jint, "tokenSize")]
      callee := "Java_com_mtkresearch_gai_1android_service_LLMEngineService_nativeSwapModel"
      args := ["env", "thiz", "tokenSize"] } ]

/-! ### Specification side: the naming convention and the listed signatures -/

/-- Specification side: the escape of one character of a fully-qualified name
in a native-method symbol: a dot becomes `_`, an underscore becomes `_1`. -/
def specEscapeChar (c : Char) : List Char :=
  if c = '.' then ['_'] else if c = '_' then ['_', '1'] else [c]

/-- Specification side: the native-method symbol of method `method` of class
`cls`: `Java_`, the escaped class name, `_`, the escaped method name. -/
def specJniSymbol (cls method : String) : String :=
  String.mk ("Java_".data ++ cls.data.flatMap specEscapeChar ++ ['_']
    ++ method.data.flatMap specEscapeChar)

/-- Specification side: the six native methods, in the order the spec lists
them. -/
def specMethods : List String :=
  ["nativeInitLlm", "nativeInference", "nativeStreamingInference", "nativeReleaseLlm",
    "nativeResetLlm", "nativeSwapModel"]

/-- Specification side: the class the proxies are exported for. -/
def specProxyClass : String := "com.mtkresearch.breeze_app.service.LLMEngineService"

/-- Specification side: the class whose native methods are the targets. -/
def specTargetClass : String := "com.mtkresearch.gai_android.service.LLMEngineService"

/-- Specification side: the signatures the spec lists, by method, as result
type and argument types after the implicit `JNIEnv*`, `jobject` pair (string is
`jstring`, bool is `jboolean`, int is `jint`, the callback object is a
`jobject`). -/
def specSignatures : List (CType × List CType) :=
  [ (.jboolean, [.jstring, .jboolean]),
    (.jstring, [.jstring, .jint, .jboolean]),
    (.jstring, [.jstring, .jint, .jboolean, .jobject]),
    (.void, []),
    (.jboolean, []),
    (.jboolean, [.jint]) ]

/-! ## The two components side by side -/

/-- A process state made of a crash-reporting part and an inference-engine
part. -/
structure World (κ σ : Type) where
  crash : κ
  engine : σ

section World

variable {κ σ α ρ : Type}

/-- An effect on the crash-reporting part, run inside the whole state. -/
def onCrash (x : StateM κ α) : StateM (World κ σ) α := fun w =>
  ((x.run w.crash).1, { w with crash := (x.run w.crash).2 })

/-- An effect on the engine part, run inside the whole state. -/
def onEngine (x : StateM σ α) : StateM (World κ σ) α := fun w =>
  ((x.run w.engine).1, { w with engine := (x.run w.engine).2 })

/-- An SDK that works on the crash-reporting part, placed in the whole state. -/
def Crashlytics.inWorld (sdk : Crashlytics (StateM κ) ρ) : Crashlytics (StateM (World κ σ)) ρ where
  Initialize := onCrash sdk.Initialize
  Log := fun msg => onCrash (sdk.Log msg)
  SetCustomKey := fun key value => onCrash (sdk.SetCustomKey key value)

/-- An engine that works on the engine part, placed in the whole state. -/
def Original.inWorld (orig : Original (StateM σ)) : Original (StateM (World κ σ)) where
  Java_com_mtkresearch_gai_1android_service_LLMEngineService_nativeInitLlm :=
    fun env thiz a b => onEngine
      (orig.Java_com_mtkresearch_gai_1android_service_LLMEngineService_nativeInitLlm env thiz a b)
  Java_com_mtkresearch_gai_1android_service_LLMEngineService_nativeInference :=
    fun env thiz a b c => onEngine
      (orig.Java_com_mtkresearch_gai_1android_service_LLMEngineService_nativeInference
        env thiz a b c)
  Java_com_mtkresearch_gai_1android_service_LLMEngineService_nativeStreamingInference :=
    fun env thiz a b c d => onEngine
      (orig.Java_com_mtkresearch_gai_1android_service_LLMEngineService_nativeStreamingInference
        env thiz a b c d)
  Java_com_mtkresearch_gai_1android_service_LLMEngineService_nativeReleaseLlm :=
    fun env thiz => onEngine
      (orig.Java_com_mtkresearch_gai_1android_service_LLMEngineService_nativeReleaseLlm env thiz)
  Java_com_mtkresearch_gai_1android_service_LLMEngineService_nativeResetLlm :=
    fun env thiz => onEngine
      (orig.Java_com_mtkresearch_gai_1android_service_LLMEngineService_nativeResetLlm env thiz)
  Java_com_mtkresearch_gai_1android_service_LLMEngineService_nativeSwapModel :=
    fun env thiz a => onEngine
      (orig.Java_com_mtkresearch_gai_1android_service_LLMEngineService_nativeSwapModel
        env thiz a)

end World

/-! ## The custom keys of a crash-reporting session -/

/-- The custom keys of the current crash-reporting session: the value, if any,
associated with each key. -/
abbrev CustomKeys := String → Option String

/-- Modelled from the spec: `firebase::crashlytics::SetCustomKey` of the
vendored SDK, whose header `crashlytics/crashlytics.h` is not among the
sources.  It associates a string key with a string value for the current
session, and the last write for a given key wins. -/
def firebase.crashlytics.SetCustomKey (key value : String) : StateM CustomKeys Unit :=
  modify fun keys => fun k => if k = key then some value else keys k

/-- An SDK over the session's custom keys whose `SetCustomKey` is the modelled
one; `Initialize` and `Log`, on which the spec is silent, stay parameters. -/
def keyedSdk (init : StateM CustomKeys Unit) (log : String → StateM CustomKeys Unit) :
    Crashlytics (StateM CustomKeys) Unit where
  Initialize := init
  Log := log
  SetCustomKey := firebase.crashlytics.SetCustomKey

/-! ## Sequences of calls made by a client of the shim -/

/-- One call of a client into `crashlytics_init.h`. -/
inductive ShimCall where
  | initCrashlytics
  | logToCrashlytics (message : String)
  | setCrashlyticsKey (key value : String)
  deriving DecidableEq, Repr

/-- One call into the SDK. -/
inductive SdkCall where
  | Initialize
  | Log (msg : String)
  | SetCustomKey (key value : String)
  deriving DecidableEq, Repr

/-- The SDK call a shim call stands for. -/
def ShimCall.forwarded : ShimCall → SdkCall
  | .initCrashlytics => .Initialize
  | .logToCrashlytics message => .Log message
  | .setCrashlyticsKey key value => .SetCustomKey key value

section Sequences

variable {m : Type → Type} [Monad m] {ρ : Type}

/-- Perform one shim call. -/
def ShimCall.perform (sdk : Crashlytics m ρ) : ShimCall → m Unit
  | .initCrashlytics => BreezeApp.initCrashlytics sdk
  | .logToCrashlytics message => BreezeApp.logToCrashlytics sdk message
  | .setCrashlyticsKey key value => BreezeApp.setCrashlyticsKey sdk key value

/-- Perform one SDK call. -/
def SdkCall.perform (sdk : Crashlytics m ρ) : SdkCall → m ρ
  | .Initialize => sdk.Initialize
  | .Log msg => sdk.Log msg
  | .SetCustomKey key value => sdk.SetCustomKey key value

/-- A client performing shim calls one after the other. -/
def performShimCalls (sdk : Crashlytics m ρ) : List ShimCall → m Unit
  | [] => pure ()
  | c :: cs => do
    c.perform sdk
    performShimCalls sdk cs

/-- A client performing SDK calls one after the other, dropping what they
hand back. -/
def performSdkCalls (sdk : Crashlytics m ρ) : List SdkCall → m Unit
  | [] => pure ()
  | c :: cs => do
    let _ ← c.perform sdk
    performSdkCalls sdk cs

end Sequences

/-- An SDK that does nothing but append each call it receives to a journal. -/
def journalSdk : Crashlytics (StateM (List SdkCall)) Unit where
  Initialize := modify fun journal => journal ++ [SdkCall.Initialize]
  Log := fun msg => modify fun journal => journal ++ [SdkCall.Log msg]
  SetCustomKey := fun key value => modify fun journal => journal ++ [SdkCall.SetCustomKey key value]

/-! ## Outcomes of calls that may fail -/

section Outcomes

variable {σ ε α : Type}

/-- The call `x`, started in state `s`, fails with error `e` and leaves
state `s'`. -/
def FailsWith (x : ExceptT ε (StateM σ) α) (s : σ) (e : ε) (s' : σ) : Prop :=
  x.run.run s = (Except.error e, s')

/-- The call `x`, started in state `s`, returns `r` and leaves state `s'`. -/
def ReturnsWith (x : ExceptT ε (StateM σ) α) (s : σ) (r : α) (s' : σ) : Prop :=
  x.run.run s = (Except.ok r, s')

/-- The call `proxy` has no failure mode of its own with respect to `target`:
started in `s` it fails exactly when `target` does, with the same error, and
it returns whatever `target` returns. -/
def NoNewFailure (proxy target : ExceptT ε (StateM σ) α) (s : σ) : Prop :=
  (∀ e s', FailsWith proxy s e s' ↔ FailsWith target s e s') ∧
    (∀ r s', ReturnsWith target s r s' → ReturnsWith proxy s r s')

end Outcomes

/-- The two shim calls `initCrashlytics()` and `logToCrashlytics("x")`, followed
by `call`. -/
def afterInitAndLog {κ σ α ρ : Type} (sdk : Crashlytics (StateM (World κ σ)) ρ)
    (call : StateM (World κ σ) α) : StateM (World κ σ) α := do
  initCrashlytics sdk
  logToCrashlytics sdk "x"
  call

end BreezeApp

/-! ## Small collaborators to run the glue on -/

namespace BreezeApp

/-- A small engine whose state is a token budget: loading sets it, inference
spends it, release clears it. -/
def budgetEngine : Original (StateM Nat) where
  Java_com_mtkresearch_gai_1android_service_LLMEngineService_nativeInitLlm := fun _ _ path preload budget =>
    if path.ref = 0 then (0, budget) else (1, 128 + preload.val)
  Java_com_mtkresearch_gai_1android_service_LLMEngineService_nativeInference := fun _ _ input maxResponse _ budget =>
    (⟨input.ref + budget⟩, budget - maxResponse.toNat)
  Java_com_mtkresearch_gai_1android_service_LLMEngineService_nativeStreamingInference := fun _ _ input maxResponse _ callback budget =>
    (⟨input.ref + callback.ref⟩, budget - maxResponse.toNat)
  Java_com_mtkresearch_gai_1android_service_LLMEngineService_nativeReleaseLlm := fun _ _ _ => ((), 0)
  Java_com_mtkresearch_gai_1android_service_LLMEngineService_nativeResetLlm := fun _ _ budget => (if budget = 0 then 0 else 1, budget)
  Java_com_mtkresearch_gai_1android_service_LLMEngineService_nativeSwapModel := fun _ _ tokenSize _ => (1, tokenSize.toNat)

/-- A small engine that may fail: every method but `nativeInitLlm` and
`nativeReleaseLlm` fails while the budget is zero. -/
def strictEngine : Original (ExceptT String (StateM Nat)) where
  Java_com_mtkresearch_gai_1android_service_LLMEngineService_nativeInitLlm := fun _ _ path _ => ExceptT.mk fun budget =>
    if path.ref = 0 then (Except.error "null config path", budget) else (Except.ok 1, 128)
  Java_com_mtkresearch_gai_1android_service_LLMEngineService_nativeInference := fun _ _ input _ _ => ExceptT.mk fun budget =>
    if budget = 0 then (Except.error "engine not initialised", budget)
    else (Except.ok ⟨input.ref⟩, budget - 1)
  Java_com_mtkresearch_gai_1android_service_LLMEngineService_nativeStreamingInference := fun _ _ input _ _ _ => ExceptT.mk fun budget =>
    if budget = 0 then (Except.error "engine not initialised", budget)
    else (Except.ok ⟨input.ref⟩, budget - 1)
  Java_com_mtkresearch_gai_1android_service_LLMEngineService_nativeReleaseLlm := fun _ _ => ExceptT.mk fun _ => (Except.ok (), 0)
  Java_com_mtkresearch_gai_1android_service_LLMEngineService_nativeResetLlm := fun _ _ => ExceptT.mk fun budget =>
    if budget = 0 then (Except.error "engine not initialised", budget) else (Except.ok 1, budget)
  Java_com_mtkresearch_gai_1android_service_LLMEngineService_nativeSwapModel := fun _ _ tokenSize => ExceptT.mk fun budget =>
    if budget = 0 then (Except.error "engine not initialised", budget)
    else (Except.ok 1, tokenSize.toNat)

end BreezeApp

/-! # Theorems -/

namespace BreezeApp

/-- C1 (pass-through fidelity).  For every implementation of the six
`gai_android` targets as functions of the engine state and their arguments,
every starting state and every argument tuple, each of the six proxies yields
the same return value and the same resulting state as its target called with
the same arguments in the same order. -/
theorem proxy_pass_through {σ : Type} (orig : Original (StateM σ)) (s : σ)
    (env : JNIEnvPtr) (thiz : jobject) (str : jstring) (n : jint) (flag : jboolean)
    (callback : jobject) :
    (Java_com_mtkresearch_breeze_1app_service_LLMEngineService_nativeInitLlm
        orig env thiz str flag).run s
      = (orig.Java_com_mtkresearch_gai_1android_service_LLMEngineService_nativeInitLlm
        env thiz str flag).run s
    ∧ (Java_com_mtkresearch_breeze_1app_service_LLMEngineService_nativeInference
        orig env thiz str n flag).run s
      = (orig.Java_com_mtkresearch_gai_1android_service_LLMEngineService_nativeInference
        env thiz str n flag).run s
    ∧ (Java_com_mtkresearch_breeze_1app_service_LLMEngineService_nativeStreamingInference
        orig env thiz str n flag callback).run s
      = (orig.Java_com_mtkresearch_gai_1android_service_LLMEngineService_nativeStreamingInference
        env thiz str n flag callback).run s
    ∧ (Java_com_mtkresearch_breeze_1app_service_LLMEngineService_nativeReleaseLlm
        orig env thiz).run s
      = (orig.Java_com_mtkresearch_gai_1android_service_LLMEngineService_nativeReleaseLlm
        env thiz).run s
    ∧ (Java_com_mtkresearch_breeze_1app_service_LLMEngineService_nativeResetLlm
        orig env thiz).run s
      = (orig.Java_com_mtkresearch_gai_1android_service_LLMEngineService_nativeResetLlm
        env thiz).run s
    ∧ (Java_com_mtkresearch_breeze_1app_service_LLMEngineService_nativeSwapModel
        orig env thiz n).run s
      = (orig.Java_com_mtkresearch_gai_1android_service_LLMEngineService_nativeSwapModel
        env thiz n).run s :=
  ⟨rfl, rfl, rfl, rfl, rfl, rfl⟩

/-- C2 (symbol naming and 1:1 mapping).  `llm_jni_proxy.cpp` defines exactly six
functions; their symbols are, method by method, the native-method names of
class `com.mtkresearch.breeze_app.service.LLMEngineService`; the symbol each
one calls is the native-method name of the same method of
`com.mtkresearch.gai_android.service.LLMEngineService`, as declared in
`llm_jni_original.h`; no symbol is exported twice and no two proxies call the
same target. -/
theorem proxy_symbol_mapping :
    llm_jni_proxy_cpp.length = 6
    ∧ llm_jni_proxy_cpp.map (fun d => d.symbol)
      = specMethods.map (specJniSymbol specProxyClass)
    ∧ llm_jni_proxy_cpp.map (fun d => d.callee)
      = specMethods.map (specJniSymbol specTargetClass)
    ∧ llm_jni_proxy_cpp.map (fun d => d.callee)
      = llm_jni_original_h.map (fun p => p.symbol)
    ∧ (llm_jni_proxy_cpp.map (fun d => d.symbol)).Nodup
    ∧ (llm_jni_proxy_cpp.map (fun d => d.callee)).Nodup := by
  decide

/-- C3 (signature agreement).  Method by method, the result type and the
parameter types of the proxy are those declared for the target it calls in
`llm_jni_original.h`, and they are the `JNIEnv*`, `jobject` pair followed by
the argument types the spec lists, with the result type the spec lists; each
proxy passes its parameters to the target in the order it received them. -/
theorem proxy_signature_agreement :
    llm_jni_proxy_cpp.map (fun d => (d.callee, d.ret, d.params.map Prod.fst))
      = llm_jni_original_h.map (fun p => (p.symbol, p.ret, p.params))
    ∧ llm_jni_proxy_cpp.map (fun d => (d.ret, d.params.map Prod.fst))
      = specSignatures.map (fun sig => (sig.1, [CType.JNIEnvPtr, CType.jobject] ++ sig.2))
    ∧ llm_jni_original_h.map (fun p => (p.ret, p.params))
      = specSignatures.map (fun sig => (sig.1, [CType.JNIEnvPtr, CType.jobject] ++ sig.2))
    ∧ (∀ d ∈ llm_jni_proxy_cpp, d.args = d.params.map Prod.snd) := by
  decide

/-- C4 (no new failure modes).  With the targets modelled as functions that
may fail, for every implementation, starting state and argument tuple, each of
the six proxies fails exactly when its target fails, with the same error (and
the same state left behind), and returns the target's result whenever the
target returns. -/
theorem proxy_no_new_failure {σ ε : Type} (orig : Original (ExceptT ε (StateM σ))) (s : σ)
    (env : JNIEnvPtr) (thiz : jobject) (str : jstring) (n : jint) (flag : jboolean)
    (callback : jobject) :
    NoNewFailure
        (Java_com_mtkresearch_breeze_1app_service_LLMEngineService_nativeInitLlm
          orig env thiz str flag)
        (orig.Java_com_mtkresearch_gai_1android_service_LLMEngineService_nativeInitLlm
          env thiz str flag) s
    ∧ NoNewFailure
        (Java_com_mtkresearch_breeze_1app_service_LLMEngineService_nativeInference
          orig env thiz str n flag)
        (orig.Java_com_mtkresearch_gai_1android_service_LLMEngineService_nativeInference
          env thiz str n flag) s
    ∧ NoNewFailure
        (Java_com_mtkresearch_breeze_1app_service_LLMEngineService_nativeStreamingInference
          orig env thiz str n flag callback)
        (orig.Java_com_mtkresearch_gai_1android_service_LLMEngineService_nativeStreamingInference
          env thiz str n flag callback) s
    ∧ NoNewFailure
        (Java_com_mtkresearch_breeze_1app_service_LLMEngineService_nativeReleaseLlm
          orig env thiz)
        (orig.Java_com_mtkresearch_gai_1android_service_LLMEngineService_nativeReleaseLlm
          env thiz) s
    ∧ NoNewFailure
        (Java_com_mtkresearch_breeze_1app_service_LLMEngineService_nativeResetLlm
          orig env thiz)
        (orig.Java_com_mtkresearch_gai_1android_service_LLMEngineService_nativeResetLlm
          env thiz) s
    ∧ NoNewFailure
        (Java_com_mtkresearch_breeze_1app_service_LLMEngineService_nativeSwapModel
          orig env thiz n)
        (orig.Java_com_mtkresearch_gai_1android_service_LLMEngineService_nativeSwapModel
          env thiz n) s := by
  refine ⟨?_, ?_, ?_, ?_, ?_, ?_⟩ <;> exact ⟨fun _ _ => Iff.rfl, fun _ _ h => h⟩

end BreezeApp

namespace BreezeApp

/-- Performing a shim call is performing the SDK call it stands for and
dropping what the SDK hands back. -/
lemma ShimCall.perform_eq {m : Type → Type} [Monad m] {ρ : Type} (sdk : Crashlytics m ρ)
    (c : ShimCall) : c.perform sdk = (do let _ ← c.forwarded.perform sdk; pure ()) := by
  cases c <;> rfl

/-- A sequence of shim calls is the sequence of the SDK calls they stand
for, in any lawful monad. -/
lemma performShimCalls_eq {m : Type → Type} [Monad m] [LawfulMonad m] {ρ : Type}
    (sdk : Crashlytics m ρ) (calls : List ShimCall) :
    performShimCalls sdk calls = performSdkCalls sdk (calls.map ShimCall.forwarded) := by
  induction calls with
  | nil => rfl
  | cons c cs ih =>
    simp only [performShimCalls, performSdkCalls, List.map_cons, ShimCall.perform_eq, ih,
      bind_assoc, pure_bind]

/-- The journal after a sequence of SDK calls on the journalling SDK. -/
lemma performSdkCalls_journal (calls : List SdkCall) (journal : List SdkCall) :
    ((performSdkCalls journalSdk calls).run journal).2 = journal ++ calls := by
  induction calls generalizing journal with
  | nil => simp [performSdkCalls, StateT.run, pure, StateT.pure]
  | cons c cs ih =>
    have step : (performSdkCalls journalSdk (c :: cs)).run journal
        = (performSdkCalls journalSdk cs).run (journal ++ [c]) := by
      cases c <;> rfl
    rw [step, ih]
    simp

/-- C5 (the shim is a direct pass-through).  For every SDK and SDK state,
`initCrashlytics()` leaves the state one call of `Initialize()` leaves,
`logToCrashlytics(message)` the state one call of `Log(message)` leaves, for
every message and for the empty one, and `setCrashlyticsKey(key, value)` the
state one call of `SetCustomKey(key, value)` leaves; on an SDK that journals
its calls, each wrapper adds exactly one entry: the call with the arguments
unchanged, the key first and the value second. -/
theorem shim_pass_through {σ ρ : Type} (sdk : Crashlytics (StateM σ) ρ) (s : σ)
    (journal : List SdkCall) (message key value : String) :
    (initCrashlytics sdk).run s = ((), (sdk.Initialize.run s).2)
    ∧ (logToCrashlytics sdk message).run s = ((), ((sdk.Log message).run s).2)
    ∧ (logToCrashlytics sdk "").run s = ((), ((sdk.Log "").run s).2)
    ∧ (setCrashlyticsKey sdk key value).run s = ((), ((sdk.SetCustomKey key value).run s).2)
    ∧ ((initCrashlytics journalSdk).run journal).2 = journal ++ [SdkCall.Initialize]
    ∧ ((logToCrashlytics journalSdk message).run journal).2 = journal ++ [SdkCall.Log message]
    ∧ ((setCrashlyticsKey journalSdk key value).run journal).2
      = journal ++ [SdkCall.SetCustomKey key value] :=
  ⟨rfl, rfl, rfl, rfl, rfl, rfl, rfl⟩

/-- C6 (last write wins).  With the SDK's `SetCustomKey` modelled as overwrite
in a key-value map, after `setCrashlyticsKey(k, v1)` followed by
`setCrashlyticsKey(k, v2)` the value associated with `k` is `v2`, and the
value associated with any other key is the one it had before the two calls. -/
theorem set_key_last_write_wins (init : StateM CustomKeys Unit)
    (log : String → StateM CustomKeys Unit) (keys : CustomKeys) (k v1 v2 k' : String) :
    ((do setCrashlyticsKey (keyedSdk init log) k v1
         setCrashlyticsKey (keyedSdk init log) k v2 : StateM CustomKeys Unit).run keys).2 k'
      = if k' = k then some v2 else keys k' := by
  show (if k' = k then some v2 else if k' = k then some v1 else keys k')
    = if k' = k then some v2 else keys k'
  split <;> rfl

end BreezeApp

namespace BreezeApp

/-- C8 (independence of the two components).  Over a state made of a
crash-reporting part and an engine part, with the SDK working on the first and
the engine on the second: the three wrappers leave the engine part unchanged;
each of the six proxies returns the same value and leaves the same engine part
whether or not it is preceded by `initCrashlytics()` and
`logToCrashlytics("x")`; and for targets that are arbitrary functions of the
whole state, each proxy leaves the crash-reporting part its target leaves. -/
theorem components_independent {κ σ ρ : Type} (sdk : Crashlytics (StateM κ) ρ)
    (orig : Original (StateM σ)) (whole : Original (StateM (World κ σ))) (w : World κ σ)
    (message key value : String)
    (env : JNIEnvPtr) (thiz : jobject) (str : jstring) (n : jint) (flag : jboolean)
    (callback : jobject) :
    (((initCrashlytics (sdk.inWorld (σ := σ))).run w).2.engine = w.engine
      ∧ ((logToCrashlytics (sdk.inWorld (σ := σ)) message).run w).2.engine = w.engine
      ∧ ((setCrashlyticsKey (sdk.inWorld (σ := σ)) key value).run w).2.engine = w.engine)
    ∧ (((afterInitAndLog sdk.inWorld
        (Java_com_mtkresearch_breeze_1app_service_LLMEngineService_nativeInitLlm
          orig.inWorld env thiz str flag)).run w).1
        = ((Java_com_mtkresearch_breeze_1app_service_LLMEngineService_nativeInitLlm
          orig.inWorld env thiz str flag).run w).1
      ∧ ((afterInitAndLog sdk.inWorld
        (Java_com_mtkresearch_breeze_1app_service_LLMEngineService_nativeInitLlm
          orig.inWorld env thiz str flag)).run w).2.engine
        = ((Java_com_mtkresearch_breeze_1app_service_LLMEngineService_nativeInitLlm
          orig.inWorld env thiz str flag).run w).2.engine)
    ∧ (((afterInitAndLog sdk.inWorld
        (Java_com_mtkresearch_breeze_1app_service_LLMEngineService_nativeInference
          orig.inWorld env thiz str n flag)).run w).1
        = ((Java_com_mtkresearch_breeze_1app_service_LLMEngineService_nativeInference
          orig.inWorld env thiz str n flag).run w).1
      ∧ ((afterInitAndLog sdk.inWorld
        (Java_com_mtkresearch_breeze_1app_service_LLMEngineService_nativeInference
          orig.inWorld env thiz str n flag)).run w).2.engine
        = ((Java_com_mtkresearch_breeze_1app_service_LLMEngineService_nativeInference
          orig.inWorld env thiz str n flag).run w).2.engine)
    ∧ (((afterInitAndLog sdk.inWorld
        (Java_com_mtkresearch_breeze_1app_service_LLMEngineService_nativeStreamingInference
          orig.inWorld env thiz str n flag callback)).run w).1
        = ((Java_com_mtkresearch_breeze_1app_service_LLMEngineService_nativeStreamingInference
          orig.inWorld env thiz str n flag callback).run w).1
      ∧ ((afterInitAndLog sdk.inWorld
        (Java_com_mtkresearch_breeze_1app_service_LLMEngineService_nativeStreamingInference
          orig.inWorld env thiz str n flag callback)).run w).2.engine
        = ((Java_com_mtkresearch_breeze_1app_service_LLMEngineService_nativeStreamingInference
          orig.inWorld env thiz str n flag callback).run w).2.engine)
    ∧ (((afterInitAndLog sdk.inWorld
        (Java_com_mtkresearch_breeze_1app_service_LLMEngineService_nativeReleaseLlm
          orig.inWorld env thiz)).run w).1
        = ((Java_com_mtkresearch_breeze_1app_service_LLMEngineService_nativeReleaseLlm
          orig.inWorld env thiz).run w).1
      ∧ ((afterInitAndLog sdk.inWorld
        (Java_com_mtkresearch_breeze_1app_service_LLMEngineService_nativeReleaseLlm
          orig.inWorld env thiz)).run w).2.engine
        = ((Java_com_mtkresearch_breeze_1app_service_LLMEngineService_nativeReleaseLlm
          orig.inWorld env thiz).run w).2.engine)
    ∧ (((afterInitAndLog sdk.inWorld
        (Java_com_mtkresearch_breeze_1app_service_LLMEngineService_nativeResetLlm
          orig.inWorld env thiz)).run w).1
        = ((Java_com_mtkresearch_breeze_1app_service_LLMEngineService_nativeResetLlm
          orig.inWorld env thiz).run w).1
      ∧ ((afterInitAndLog sdk.inWorld
        (Java_com_mtkresearch_breeze_1app_service_LLMEngineService_nativeResetLlm
          orig.inWorld env thiz)).run w).2.engine
        = ((Java_com_mtkresearch_breeze_1app_service_LLMEngineService_nativeResetLlm
          orig.inWorld env thiz).run w).2.engine)
    ∧ (((afterInitAndLog sdk.inWorld
        (Java_com_mtkresearch_breeze_1app_service_LLMEngineService_nativeSwapModel
          orig.inWorld env thiz n)).run w).1
        = ((Java_com_mtkresearch_breeze_1app_service_LLMEngineService_nativeSwapModel
          orig.inWorld env thiz n).run w).1
      ∧ ((afterInitAndLog sdk.inWorld
        (Java_com_mtkresearch_breeze_1app_service_LLMEngineService_nativeSwapModel
          orig.inWorld env thiz n)).run w).2.engine
        = ((Java_com_mtkresearch_breeze_1app_service_LLMEngineService_nativeSwapModel
          orig.inWorld env thiz n).run w).2.engine)
    ∧ ((Java_com_mtkresearch_breeze_1app_service_LLMEngineService_nativeInitLlm
          whole env thiz str flag).run w).2.crash
        = ((whole.Java_com_mtkresearch_gai_1android_service_LLMEngineService_nativeInitLlm
          env thiz str flag).run w).2.crash
    ∧ ((Java_com_mtkresearch_breeze_1app_service_LLMEngineService_nativeInference
          whole env thiz str n flag).run w).2.crash
        = ((whole.Java_com_mtkresearch_gai_1android_service_LLMEngineService_nativeInference
          env thiz str n flag).run w).2.crash
    ∧ ((Java_com_mtkresearch_breeze_1app_service_LLMEngineService_nativeStreamingInference
          whole env thiz str n flag callback).run w).2.crash
        = ((whole.Java_com_mtkresearch_gai_1android_service_LLMEngineService_nativeStreamingInference
          env thiz str n flag callback).run w).2.crash
    ∧ ((Java_com_mtkresearch_breeze_1app_service_LLMEngineService_nativeReleaseLlm
          whole env thiz).run w).2.crash
        = ((whole.Java_com_mtkresearch_gai_1android_service_LLMEngineService_nativeReleaseLlm
          env thiz).run w).2.crash
    ∧ ((Java_com_mtkresearch_breeze_1app_service_LLMEngineService_nativeResetLlm
          whole env thiz).run w).2.crash
        = ((whole.Java_com_mtkresearch_gai_1android_service_LLMEngineService_nativeResetLlm
          env thiz).run w).2.crash
    ∧ ((Java_com_mtkresearch_breeze_1app_service_LLMEngineService_nativeSwapModel
          whole env thiz n).run w).2.crash
        = ((whole.Java_com_mtkresearch_gai_1android_service_LLMEngineService_nativeSwapModel
          env thiz n).run w).2.crash :=
  ⟨⟨rfl, rfl, rfl⟩, ⟨rfl, rfl⟩, ⟨rfl, rfl⟩, ⟨rfl, rfl⟩, ⟨rfl, rfl⟩, ⟨rfl, rfl⟩, ⟨rfl, rfl⟩,
    rfl, rfl, rfl, rfl, rfl, rfl⟩

/-- C9 (no initialization tracking).  For every SDK, SDK state and sequence of
shim calls, in any order and with or without `initCrashlytics()` first, the
shim behaves as the SDK does on the sequence of the calls they stand for; on an
SDK that journals its calls the journal grows by exactly those calls, in order;
and `n` calls of `initCrashlytics()` make exactly `n` calls of `Initialize()`
and no other. -/
theorem shim_tracks_no_initialization {σ ρ : Type} (sdk : Crashlytics (StateM σ) ρ) (s : σ)
    (calls : List ShimCall) (journal : List SdkCall) (n : Nat) :
    (performShimCalls sdk calls).run s
      = (performSdkCalls sdk (calls.map ShimCall.forwarded)).run s
    ∧ ((performShimCalls journalSdk calls).run journal).2
      = journal ++ calls.map ShimCall.forwarded
    ∧ ((performShimCalls journalSdk (List.replicate n ShimCall.initCrashlytics)).run []).2
      = List.replicate n SdkCall.Initialize
    ∧ (((performShimCalls journalSdk (List.replicate n ShimCall.initCrashlytics)).run []).2).count
        SdkCall.Initialize = n := by
  have key : ∀ cs : List ShimCall, ∀ j : List SdkCall,
      ((performShimCalls journalSdk cs).run j).2 = j ++ cs.map ShimCall.forwarded := by
    intro cs j
    rw [performShimCalls_eq, performSdkCalls_journal]
  refine ⟨by rw [performShimCalls_eq], key calls journal, ?_, ?_⟩
  · rw [key]
    simp [ShimCall.forwarded]
  · rw [key]
    simp [ShimCall.forwarded]

end BreezeApp

namespace BreezeApp

/-- C1 at a concrete input: on the budget engine, started with an empty budget,
the `nativeInitLlm` proxy called with a non-null path and `preload = 1` returns
`1` and leaves a budget of `129`, as the target does. -/
theorem proxy_pass_through_witness :
    (Java_com_mtkresearch_breeze_1app_service_LLMEngineService_nativeInitLlm
        budgetEngine ⟨4096⟩ ⟨1⟩ ⟨7⟩ 1).run 0 = ((1 : jboolean), 129)
    ∧ (Java_com_mtkresearch_breeze_1app_service_LLMEngineService_nativeSwapModel
        budgetEngine ⟨4096⟩ ⟨1⟩ 32).run 129 = ((1 : jboolean), 32) :=
  ⟨(proxy_pass_through budgetEngine 0 ⟨4096⟩ ⟨1⟩ ⟨7⟩ 32 1 ⟨9⟩).1.trans rfl,
    (proxy_pass_through budgetEngine 129 ⟨4096⟩ ⟨1⟩ ⟨7⟩ 32 1 ⟨9⟩).2.2.2.2.2.trans rfl⟩

/-- C4 at a concrete input: on the strict engine with an empty budget the
`nativeInference` proxy fails with the target's error and leaves the state
alone; with a budget of `128` it returns the target's result. -/
theorem proxy_no_new_failure_witness :
    FailsWith
        (Java_com_mtkresearch_breeze_1app_service_LLMEngineService_nativeInference
          strictEngine ⟨4096⟩ ⟨1⟩ ⟨7⟩ 32 1) 0 "engine not initialised" 0
    ∧ ReturnsWith
        (Java_com_mtkresearch_breeze_1app_service_LLMEngineService_nativeInference
          strictEngine ⟨4096⟩ ⟨1⟩ ⟨7⟩ 32 1) 128 ⟨7⟩ 127 :=
  ⟨((proxy_no_new_failure strictEngine 0 ⟨4096⟩ ⟨1⟩ ⟨7⟩ 32 1 ⟨9⟩).2.1.1 _ _).mpr rfl,
    (proxy_no_new_failure strictEngine 128 ⟨4096⟩ ⟨1⟩ ⟨7⟩ 32 1 ⟨9⟩).2.1.2 _ _ rfl⟩

/-- C6 at a concrete input: from a session without keys, writing `"v1"` then
`"v2"` under `"k"` leaves `"v2"` under `"k"` and nothing under `"other"`. -/
theorem set_key_last_write_wins_witness :
    ((do setCrashlyticsKey (keyedSdk (pure ()) (fun _ => pure ())) "k" "v1"
         setCrashlyticsKey (keyedSdk (pure ()) (fun _ => pure ())) "k" "v2" :
          StateM CustomKeys Unit).run (fun _ => none)).2 "k" = some "v2"
    ∧ ((do setCrashlyticsKey (keyedSdk (pure ()) (fun _ => pure ())) "k" "v1"
           setCrashlyticsKey (keyedSdk (pure ()) (fun _ => pure ())) "k" "v2" :
          StateM CustomKeys Unit).run (fun _ => none)).2 "other" = none :=
  ⟨(set_key_last_write_wins (pure ()) (fun _ => pure ()) (fun _ => none)
      "k" "v1" "v2" "k").trans (by decide),
    (set_key_last_write_wins (pure ()) (fun _ => pure ()) (fun _ => none)
      "k" "v1" "v2" "other").trans (by decide)⟩

/-- C9 at a concrete input: a log call and a key call made before two
initializations reach the journalling SDK as those four calls, in order. -/
theorem shim_tracks_no_initialization_witness :
    ((performShimCalls journalSdk
        [ShimCall.logToCrashlytics "a", ShimCall.setCrashlyticsKey "k" "v",
          ShimCall.initCrashlytics, ShimCall.initCrashlytics]).run []).2
      = [SdkCall.Log "a", SdkCall.SetCustomKey "k" "v", SdkCall.Initialize,
          SdkCall.Initialize] :=
  (shim_tracks_no_initialization journalSdk []
    [ShimCall.logToCrashlytics "a", ShimCall.setCrashlyticsKey "k" "v",
      ShimCall.initCrashlytics, ShimCall.initCrashlytics] [] 0).2.1.trans rfl

end BreezeApp
